import Mathlib

/-!
Verification development for the M2M OAuth credential rotation notebook
(`Update-M2M-OAuth-Credentials.py` together with `services/databricks_service.py`
and `services/powerbi_service.py`).

The embedding is shallow: every HTTP interaction is abstracted by an
environment record holding the responses the external APIs would return
(status codes, response bodies, listed collections), and each Python
method becomes a Lean function over that record.  A Python `raise` site
becomes an `Except.error` with a dedicated error constructor; a Python
`UnboundLocalError` (a scan whose result variable is never assigned)
becomes `Option.none`, surfaced in the pipeline as `Err.UnboundLocalError`.
The notebook's sequential cells become a chain of step functions that
thread the accumulated API-call trace (a `List Event`), so temporal
claims (ordering, "never called in this run") are statements about the
produced trace.
-/

namespace M2MRotation

/-- A service principal as returned by the SCIM list/create endpoints:
`sp.application_id` and `sp.id` are the two fields the code reads. -/
structure ServicePrincipalObj where
  application_id : String
  id : String
deriving DecidableEq, Repr

/-- Environment for `DatabricksService`: the responses of the Databricks
workspace client.  `listByName` is the result of
`service_principals.list(filter=displayName eq name)`, `created` the result of
`service_principals.create`, `secretCount` the length of
`service_principal_secrets_proxy.list`, `newSecret` the `secret` field of
`service_principal_secrets_proxy.create`. -/
structure DatabricksEnv where
  listByName : List ServicePrincipalObj
  created : ServicePrincipalObj
  secretCount : Nat
  newSecret : String
deriving DecidableEq, Repr

/-- One constructor per distinct `raise` site of the Python code, carrying the
data interpolated into the corresponding message, plus `UnboundLocalError` for
the two scans whose result variable may never be assigned. -/
inductive Err where
  | RotationCapExceeded (spId : String)
  | WorkspaceStatusError (status : Nat) (body : String)
  | WorkspaceNotFound (name : String)
  | OwnershipDenied
  | PublishRejected (status : Nat) (body : String)
  | RefreshRejected (status : Nat) (body : String)
  | UnboundLocalError (var : String)
deriving DecidableEq, Repr

/-- `self.max_secrets = 5` set in `DatabricksService.CreateClient`. -/
def max_secrets : Nat := 5

/-- `DatabricksService.CheckServicePrincipal`: scan the filtered list,
overwriting `(application_id, id)` on every element; if the id variable is
still `None` after the loop, create the principal and use the created ids. -/
def CheckServicePrincipal (env : DatabricksEnv) : String × String :=
  let found := env.listByName.foldl
    (fun _ sp => some (sp.application_id, sp.id)) none
  match found with
  | none => (env.created.application_id, env.created.id)
  | some p => p

/-- `DatabricksService.CheckServicePrincipalSecret`: raise when the number of
live secrets is `≥ max_secrets`, otherwise succeed. -/
def CheckServicePrincipalSecret (secretCount : Nat) (spId : String) :
    Except Err Unit :=
  if secretCount ≥ max_secrets then .error (.RotationCapExceeded spId)
  else .ok ()

/-- `DatabricksService.GenerateServicePrincipalSecret`: returns the plaintext
secret of the freshly created service-principal secret. -/
def GenerateServicePrincipalSecret (env : DatabricksEnv) : String :=
  env.newSecret

/-- A dataset entry of `GET groups/{id}/datasets`: the code reads `name`, `id`. -/
structure Dataset where
  name : String
  id : String
deriving DecidableEq, Repr

/-- A datasource entry of `GET groups/{w}/datasets/{d}/datasources`: the code
reads `connectionDetails.kind`, `gatewayId`, `datasourceId`. -/
structure Datasource where
  kind : String
  gatewayId : String
  datasourceId : String
deriving DecidableEq, Repr

/-- Environment for `PowerbiService`: the responses of the Power BI REST API,
one group of fields per endpoint the notebook calls. -/
structure PowerBIEnv where
  workspaceStatus : Nat
  workspaceBody : String
  workspaces : List String
  datasets : List Dataset
  takeoverStatus : Nat
  datasources : List Datasource
  publicKey : String
  updateStatus : Nat
  updateBody : String
  refreshStatus : Nat
  refreshBody : String
deriving DecidableEq, Repr

/-- `PowerbiService.GetGatewayPublicKey`: returns the gateway's `publicKey`. -/
def GetGatewayPublicKey (env : PowerBIEnv) : String :=
  env.publicKey

/-- `PowerbiService.GetDatasetId`: scan `temp["value"]`, overwriting
`DatasetId` whenever `i["name"] == dataset_name`.  `none` models the Python
`UnboundLocalError` raised by `return DatasetId` when no entry matched. -/
def GetDatasetId (datasets : List Dataset) (dataset_name : String) :
    Option String :=
  datasets.foldl
    (fun acc i => if i.name == dataset_name then some i.id else acc) none

/-- `PowerbiService.GetWorkspaceId`: non-200 status raises with the status code
and response body; an empty `value` list raises the not-found error; otherwise
return `value[0]["id"]`. -/
def GetWorkspaceId (env : PowerBIEnv) (workspace_name : String) :
    Except Err String :=
  if env.workspaceStatus ≠ 200 then
    .error (.WorkspaceStatusError env.workspaceStatus env.workspaceBody)
  else
    match env.workspaces with
    | [] => .error (.WorkspaceNotFound workspace_name)
    | w :: _ => .ok w

/-- `PowerbiService.GetDatasetDatasource`: scan `temp["value"]`, overwriting
`(GatewayId, DataSourceId)` whenever `connectionDetails.kind == "Databricks"`.
`none` models the `UnboundLocalError` of `return (GatewayId, DataSourceId)`
when no entry matched. -/
def GetDatasetDatasource (datasources : List Datasource) :
    Option (String × String) :=
  datasources.foldl
    (fun acc i =>
      if i.kind == "Databricks" then some (i.gatewayId, i.datasourceId)
      else acc)
    none

/-- `PowerbiService.TakOverDataset` (sic): 200 succeeds, anything else raises
the permissions error. -/
def TakOverDataset (takeoverStatus : Nat) : Except Err Unit :=
  if takeoverStatus = 200 then .ok ()
  else .error .OwnershipDenied

/-- `PowerbiService.RefreshDataset`: a status other than 202 raises with the
status code and response body. -/
def RefreshDataset (refreshStatus : Nat) (refreshBody : String) :
    Except Err Unit :=
  if refreshStatus ≠ 202 then .error (.RefreshRejected refreshStatus refreshBody)
  else .ok ()

/-- `PowerbiService.UpdateDatasetDatasource`: a status other than 200 raises
with the status code and response body. -/
def UpdateDatasetDatasource (updateStatus : Nat) (updateBody : String) :
    Except Err Unit :=
  if updateStatus ≠ 200 then .error (.PublishRejected updateStatus updateBody)
  else .ok ()

/-- Notebook step 14, `Onpremises` branch: the string literal handed to
`EncodeCredentials` (single-quoted, no whitespace), built by `+`-concatenation
in the source. -/
def onpremCredentialString (applicationId secretValue : String) : String :=
  "\x7b\x27credentialData\x27:[\x7b\x27name\x27:\x27username\x27,\x27value\x27:\x27"
    ++ applicationId
    ++ "\x27\x7d,\x7b\x27name\x27:\x27password\x27,\x27value\x27:\x27"
    ++ secretValue
    ++ "\x27\x7d]\x7d"

/-- Notebook step 14, `else` branch: the f-string credentials value
(double-quoted JSON with a space after each `name` pair and after `value`:). -/
def plaintextCredentialString (applicationId secretValue : String) : String :=
  "\x7b\"credentialData\":[\x7b\"name\":\"username\", \"value\": \""
    ++ applicationId
    ++ "\"\x7d,\x7b\"name\":\"password\", \"value\": \""
    ++ secretValue
    ++ "\"\x7d]\x7d"

/-- The API calls the notebook performs, in cell order. -/
inductive Event where
  | CheckPrincipal
  | CheckSecretCount
  | MintSecret
  | GrantPermission
  | ResolveWorkspace
  | ResolveDataset
  | TakeOver
  | ResolveDatasource
  | FetchGatewayKey
  | Publish
  | Refresh
deriving DecidableEq, Repr

/-- Notebook step 14: when `GatewayType == "Onpremises"`, fetch the gateway
public key, encrypt the single-quoted payload under it and tag the result
`"RSA-OAEP"`; otherwise use the plaintext f-string payload tagged `"None"`.
The encryption itself lives in `services/encrypt_credentials_service.py`,
which is external to the modelled core, so it is passed in as the function
`encrypt publicKey plaintext`.  Returns the API events of this step, the
`EncryptionAlgorithm` tag and the `Credentials` string. -/
def buildCredentials (encrypt : String → String → String)
    (gatewayType applicationId secretValue publicKey : String) :
    List Event × String × String :=
  if gatewayType = "Onpremises" then
    ([Event.FetchGatewayKey], "RSA-OAEP",
      encrypt publicKey (onpremCredentialString applicationId secretValue))
  else
    ([], "None", plaintextCredentialString applicationId secretValue)

/-- The notebook's input parameters (widgets) together with both service
environments. -/
structure NotebookEnv where
  workspaceName : String
  datasetName : String
  gatewayType : String
  refreshFlag : String
  encrypt : String → String → String
  dbx : DatabricksEnv
  pbi : PowerBIEnv

/-- Notebook step 16: trigger the dataset refresh iff the `RefreshDataset`
widget is `"true"`. -/
def step16 (env : NotebookEnv) (tr : List Event) : List Event × Option Err :=
  if env.refreshFlag = "true" then
    match RefreshDataset env.pbi.refreshStatus env.pbi.refreshBody with
    | .error e => (tr ++ [Event.Refresh], some e)
    | .ok _ => (tr ++ [Event.Refresh], none)
  else (tr, none)

/-- Notebook step 15: publish the credentials, then go to step 16. -/
def step15 (env : NotebookEnv) (tr : List Event) : List Event × Option Err :=
  match UpdateDatasetDatasource env.pbi.updateStatus env.pbi.updateBody with
  | .error e => (tr ++ [Event.Publish], some e)
  | .ok _ => step16 env (tr ++ [Event.Publish])

/-- Notebook step 14: build the credentials payload, then go to step 15. -/
def step14 (env : NotebookEnv) (tr : List Event) (applicationId secretValue : String) :
    List Event × Option Err :=
  let b := buildCredentials env.encrypt env.gatewayType applicationId secretValue
    env.pbi.publicKey
  step15 env (tr ++ b.1)

/-- Notebook step 13: resolve the Databricks datasource; an unmatched scan is
the `UnboundLocalError` on `GatewayId`. -/
def step13 (env : NotebookEnv) (tr : List Event) (applicationId secretValue : String) :
    List Event × Option Err :=
  match GetDatasetDatasource env.pbi.datasources with
  | none => (tr ++ [Event.ResolveDatasource], some (.UnboundLocalError "GatewayId"))
  | some _ => step14 env (tr ++ [Event.ResolveDatasource]) applicationId secretValue

/-- Notebook step 12: take over the dataset ownership iff
`GatewayType == "NoGateway"`, then go to step 13. -/
def step12 (env : NotebookEnv) (tr : List Event) (applicationId secretValue : String) :
    List Event × Option Err :=
  if env.gatewayType = "NoGateway" then
    match TakOverDataset env.pbi.takeoverStatus with
    | .error e => (tr ++ [Event.TakeOver], some e)
    | .ok _ => step13 env (tr ++ [Event.TakeOver]) applicationId secretValue
  else step13 env tr applicationId secretValue

/-- Notebook step 11: resolve the dataset id by name; an unmatched scan is the
`UnboundLocalError` on `DatasetId`. -/
def step11 (env : NotebookEnv) (tr : List Event) (applicationId secretValue : String) :
    List Event × Option Err :=
  match GetDatasetId env.pbi.datasets env.datasetName with
  | none => (tr ++ [Event.ResolveDataset], some (.UnboundLocalError "DatasetId"))
  | some _ => step12 env (tr ++ [Event.ResolveDataset]) applicationId secretValue

/-- Notebook step 10: resolve the workspace id by name, then go to step 11. -/
def step10 (env : NotebookEnv) (tr : List Event) (applicationId secretValue : String) :
    List Event × Option Err :=
  match GetWorkspaceId env.pbi env.workspaceName with
  | .error e => (tr ++ [Event.ResolveWorkspace], some e)
  | .ok _ => step11 env (tr ++ [Event.ResolveWorkspace]) applicationId secretValue

/-- Notebook steps 6-7: mint the new secret and grant the warehouse
permission (both unconditional), then go to step 10. -/
def step6 (env : NotebookEnv) (tr : List Event) (applicationId : String) :
    List Event × Option Err :=
  let secretValue := GenerateServicePrincipalSecret env.dbx
  step10 env (tr ++ [Event.MintSecret, Event.GrantPermission]) applicationId secretValue

/-- Notebook step 5: check the secret cap; a raise terminates the run before
any secret is minted. -/
def step5 (env : NotebookEnv) (tr : List Event) (applicationId spId : String) :
    List Event × Option Err :=
  match CheckServicePrincipalSecret env.dbx.secretCount spId with
  | .error e => (tr ++ [Event.CheckSecretCount], some e)
  | .ok _ => step6 env (tr ++ [Event.CheckSecretCount]) applicationId

/-- The whole notebook run: the ordered list of API calls it performs and the
terminal error, if any (`none` = clean completion). -/
def runNotebook (env : NotebookEnv) : List Event × Option Err :=
  let p := CheckServicePrincipal env.dbx
  step5 env [Event.CheckPrincipal] p.1 p.2

/-- Remove every space character; used to compare serialized payloads up to
the insignificant inter-token whitespace of the f-string. -/
def stripSpaces (s : String) : String :=
  ⟨s.data.filter (fun c => c != ' ')⟩

/-- Replace every single-quote character by a double quote; used to relate the
single-quoted `Onpremises` payload to double-quoted JSON. -/
def squashQuotes (s : String) : String :=
  ⟨s.data.map (fun c => if c == '\x27' then '"' else c)⟩

/-- The plaintext JSON object exactly as the specification writes it
(double-quoted, no whitespace):
`\x7b"credentialData":[\x7b"name":"username","value":applicationId\x7d,
\x7b"name":"password","value":secretValue\x7d]\x7d`. -/
def claimedPlaintextJson (applicationId secretValue : String) : String :=
  "\x7b\"credentialData\":[\x7b\"name\":\"username\",\"value\":\""
    ++ applicationId
    ++ "\"\x7d,\x7b\"name\":\"password\",\"value\":\""
    ++ secretValue
    ++ "\"\x7d]\x7d"

/-- Which events the suffix of the run starting at step 16 can add. -/
def after16 (env : NotebookEnv) (e : Event) : Prop :=
  e = Event.Refresh ∧ env.refreshFlag = "true"

/-- Which events the suffix of the run starting at step 15 can add. -/
def after15 (env : NotebookEnv) (e : Event) : Prop :=
  e = Event.Publish ∨ (env.pbi.updateStatus = 200 ∧ after16 env e)

/-- Which events the suffix of the run starting at step 14 can add. -/
def after14 (env : NotebookEnv) (e : Event) : Prop :=
  (e = Event.FetchGatewayKey ∧ env.gatewayType = "Onpremises") ∨ after15 env e

/-- Which events the suffix of the run starting at step 13 can add. -/
def after13 (env : NotebookEnv) (e : Event) : Prop :=
  e = Event.ResolveDatasource ∨
    ((GetDatasetDatasource env.pbi.datasources).isSome = true ∧ after14 env e)

/-- Which events the suffix of the run starting at step 12 can add. -/
def after12 (env : NotebookEnv) (e : Event) : Prop :=
  (e = Event.TakeOver ∧ env.gatewayType = "NoGateway") ∨
    ((env.gatewayType = "NoGateway" → env.pbi.takeoverStatus = 200) ∧
      after13 env e)

/-- Which events the suffix of the run starting at step 11 can add. -/
def after11 (env : NotebookEnv) (e : Event) : Prop :=
  e = Event.ResolveDataset ∨
    ((GetDatasetId env.pbi.datasets env.datasetName).isSome = true ∧
      after12 env e)

/-- Which events the suffix of the run starting at step 10 can add. -/
def after10 (env : NotebookEnv) (e : Event) : Prop :=
  e = Event.ResolveWorkspace ∨
    ((GetWorkspaceId env.pbi env.workspaceName).isOk = true ∧ after11 env e)

/-- Which events the suffix of the run starting at step 6 can add. -/
def after6 (env : NotebookEnv) (e : Event) : Prop :=
  e = Event.MintSecret ∨ e = Event.GrantPermission ∨ after10 env e

/-- Which events the suffix of the run starting at step 5 can add. -/
def after5 (env : NotebookEnv) (e : Event) : Prop :=
  e = Event.CheckSecretCount ∨
    (env.dbx.secretCount < max_secrets ∧ after6 env e)

/-- The run gets past steps 5, 10 and 11: the cap is not hit, the workspace
resolves and the dataset name matches some entry. -/
def ReachedStep12 (env : NotebookEnv) : Prop :=
  env.dbx.secretCount < max_secrets ∧
  (GetWorkspaceId env.pbi env.workspaceName).isOk = true ∧
  (GetDatasetId env.pbi.datasets env.datasetName).isSome = true

/-- The run reaches step 15 (the credential publish): everything before it,
including the conditional ownership takeover, succeeded. -/
def ReachedPublish (env : NotebookEnv) : Prop :=
  ReachedStep12 env ∧
  (env.gatewayType = "NoGateway" → env.pbi.takeoverStatus = 200) ∧
  (GetDatasetDatasource env.pbi.datasources).isSome = true

/-- Databricks-side fixture: no existing principal, no existing secrets. -/
def dbxOk : DatabricksEnv :=
  ⟨[], ⟨"app-123", "sp-1"⟩, 0, "dose-secret"⟩

/-- Databricks-side fixture: the principal already holds five secrets. -/
def dbxFull : DatabricksEnv :=
  ⟨[], ⟨"app-123", "sp-1"⟩, 5, "dose-secret"⟩

/-- Power-BI-side fixture: every call succeeds, one workspace, one dataset,
one Databricks datasource. -/
def pbiOk : PowerBIEnv :=
  ⟨200, "", ["ws-1"], [⟨"Revenue", "ds-1"⟩], 200,
    [⟨"Databricks", "gw-1", "src-1"⟩], "pk", 200, "", 202, ""⟩

/-- Power-BI-side fixture: like `pbiOk` but the credential update is rejected
with status 403. -/
def pbiDeny : PowerBIEnv :=
  ⟨200, "", ["ws-1"], [⟨"Revenue", "ds-1"⟩], 200,
    [⟨"Databricks", "gw-1", "src-1"⟩], "pk", 403, "forbidden", 202, ""⟩

/-- Notebook fixture around the service fixtures: workspace `Sales`, dataset
`Revenue`, identity encryption stub. -/
def envOf (gatewayType refreshFlag : String) (dbx : DatabricksEnv)
    (pbi : PowerBIEnv) : NotebookEnv :=
  ⟨"Sales", "Revenue", gatewayType, refreshFlag, fun _ p => p, dbx, pbi⟩

/-! ## Helper lemmas -/

/-- A fold that unconditionally overwrites its accumulator returns the last
element (or the initial accumulator on an empty list). -/
theorem foldl_overwrite {α β : Type} (g : α → β) :
    ∀ (l : List α) (acc : Option β),
      l.foldl (fun _ x => some (g x)) acc
        = match l.getLast? with
          | some x => some (g x)
          | none => acc := by
  intro l
  induction l with
  | nil => intro acc; rfl
  | cons x xs ih =>
    intro acc
    cases xs with
    | nil => rfl
    | cons y ys =>
      rw [List.foldl_cons, ih, List.getLast?_cons_cons]
      cases hl : (y :: ys).getLast? with
      | some z => rfl
      | none => simp at hl

/-- A fold that overwrites its accumulator whenever `p` holds returns the last
element satisfying `p` (or the initial accumulator when none does). -/
theorem foldl_cond_overwrite {α β : Type} (p : α → Bool) (g : α → β) :
    ∀ (l : List α) (acc : Option β),
      l.foldl (fun a x => if p x then some (g x) else a) acc
        = match (l.filter p).getLast? with
          | some x => some (g x)
          | none => acc := by
  intro l
  induction l with
  | nil => intro acc; rfl
  | cons x xs ih =>
    intro acc
    rw [List.foldl_cons, ih, List.filter_cons]
    by_cases hp : p x
    · simp only [hp, if_true]
      cases hf : (xs.filter p).getLast? with
      | some z =>
        cases hxs : xs.filter p with
        | nil => rw [hxs] at hf; simp at hf
        | cons w ws =>
          rw [hxs] at hf
          rw [List.getLast?_cons_cons, hf]
      | none =>
        have : xs.filter p = [] := by
          cases hxs : xs.filter p with
          | nil => rfl
          | cons w ws => rw [hxs] at hf; simp at hf
        rw [this]
        rfl
    · simp only [hp, if_false]
      rfl

/-- Mapping a function that fixes every element of a list is the identity. -/
theorem map_fixes {α : Type} (f : α → α) (l : List α)
    (h : ∀ x ∈ l, f x = x) : l.map f = l := by
  induction l with
  | nil => rfl
  | cons x xs ih => simp_all

/-- An `Except` value with `isOk` set is an `ok`. -/
theorem isOk_exists {ε α : Type} (e : Except ε α) (h : e.isOk = true) :
    ∃ x, e = .ok x := by
  cases e with
  | error a => simp [Except.isOk, Except.toBool] at h
  | ok a => exact ⟨a, rfl⟩

/-- `stripSpaces` distributes over concatenation. -/
theorem stripSpaces_append (a b : String) :
    stripSpaces (a ++ b) = stripSpaces a ++ stripSpaces b := by
  apply String.ext
  simp [stripSpaces, String.data_append, List.filter_append]

/-- `squashQuotes` distributes over concatenation. -/
theorem squashQuotes_append (a b : String) :
    squashQuotes (a ++ b) = squashQuotes a ++ squashQuotes b := by
  apply String.ext
  simp [squashQuotes, String.data_append, List.map_append]

/-- `stripSpaces` fixes a string without spaces. -/
theorem stripSpaces_of_no_space (a : String) (h : ∀ c ∈ a.data, c ≠ ' ') :
    stripSpaces a = a := by
  apply String.ext
  show a.data.filter (fun c => c != ' ') = a.data
  apply List.filter_eq_self.mpr
  intro c hc
  simpa using h c hc

/-- `squashQuotes` fixes a string without single quotes. -/
theorem squashQuotes_of_no_quote (a : String)
    (h : ∀ c ∈ a.data, c ≠ '\x27') : squashQuotes a = a := by
  apply String.ext
  show a.data.map (fun c => if c == '\x27' then '"' else c) = a.data
  apply map_fixes
  intro c hc
  simp [h c hc]

/-! ## Trace membership, step by step -/

/-- Events of a run suffix from step 16. -/
theorem mem_step16 (env : NotebookEnv) (tr : List Event) (e : Event) :
    e ∈ (step16 env tr).1 ↔ e ∈ tr ∨ after16 env e := by
  unfold step16 after16
  by_cases h : env.refreshFlag = "true"
  · simp only [h, if_true]
    cases RefreshDataset env.pbi.refreshStatus env.pbi.refreshBody <;>
      simp [h]
  · simp [h]

/-- Events of a run suffix from step 15. -/
theorem mem_step15 (env : NotebookEnv) (tr : List Event) (e : Event) :
    e ∈ (step15 env tr).1 ↔ e ∈ tr ∨ after15 env e := by
  unfold step15 UpdateDatasetDatasource after15
  by_cases h : env.pbi.updateStatus = 200
  · simp only [h, ne_eq, not_true_eq_false, if_false, reduceCtorEq]
    rw [mem_step16]
    simp [h, or_assoc]
  · simp [h]

/-- Events of a run suffix from step 14. -/
theorem mem_step14 (env : NotebookEnv) (tr : List Event)
    (applicationId secretValue : String) (e : Event) :
    e ∈ (step14 env tr applicationId secretValue).1 ↔
      e ∈ tr ∨ after14 env e := by
  unfold step14 buildCredentials after14
  by_cases h : env.gatewayType = "Onpremises"
  · simp only [h, if_true]
    rw [mem_step15]
    simp [h, or_assoc]
  · simp only [h, if_false]
    rw [mem_step15]
    simp [h]

/-- Events of a run suffix from step 13. -/
theorem mem_step13 (env : NotebookEnv) (tr : List Event)
    (applicationId secretValue : String) (e : Event) :
    e ∈ (step13 env tr applicationId secretValue).1 ↔
      e ∈ tr ∨ after13 env e := by
  unfold step13 after13
  cases hd : GetDatasetDatasource env.pbi.datasources with
  | none => simp [hd]
  | some x =>
    rw [mem_step14]
    simp [hd, or_assoc]

/-- Events of a run suffix from step 12. -/
theorem mem_step12 (env : NotebookEnv) (tr : List Event)
    (applicationId secretValue : String) (e : Event) :
    e ∈ (step12 env tr applicationId secretValue).1 ↔
      e ∈ tr ∨ after12 env e := by
  unfold step12 TakOverDataset after12
  by_cases h : env.gatewayType = "NoGateway"
  · simp only [h, if_true]
    by_cases h2 : env.pbi.takeoverStatus = 200
    · simp only [h2, if_true]
      rw [mem_step13]
      simp [h, h2, or_assoc]
    · simp only [h2, if_false]
      simp [h, h2]
  · simp only [h, if_false]
    rw [mem_step13]
    simp [h]

/-- Events of a run suffix from step 11. -/
theorem mem_step11 (env : NotebookEnv) (tr : List Event)
    (applicationId secretValue : String) (e : Event) :
    e ∈ (step11 env tr applicationId secretValue).1 ↔
      e ∈ tr ∨ after11 env e := by
  unfold step11 after11
  cases hd : GetDatasetId env.pbi.datasets env.datasetName with
  | none => simp [hd]
  | some x =>
    rw [mem_step12]
    simp [hd, or_assoc]

/-- Events of a run suffix from step 10. -/
theorem mem_step10 (env : NotebookEnv) (tr : List Event)
    (applicationId secretValue : String) (e : Event) :
    e ∈ (step10 env tr applicationId secretValue).1 ↔
      e ∈ tr ∨ after10 env e := by
  unfold step10 after10
  cases hw : GetWorkspaceId env.pbi env.workspaceName with
  | error a => simp [hw, Except.isOk, Except.toBool]
  | ok w =>
    rw [mem_step11]
    simp [hw, Except.isOk, Except.toBool, or_assoc]

/-- Events of a run suffix from step 6. -/
theorem mem_step6 (env : NotebookEnv) (tr : List Event)
    (applicationId : String) (e : Event) :
    e ∈ (step6 env tr applicationId).1 ↔ e ∈ tr ∨ after6 env e := by
  unfold step6 after6 GenerateServicePrincipalSecret
  rw [mem_step10]
  simp [or_assoc]

/-- Events of a run suffix from step 5. -/
theorem mem_step5 (env : NotebookEnv) (tr : List Event)
    (applicationId spId : String) (e : Event) :
    e ∈ (step5 env tr applicationId spId).1 ↔ e ∈ tr ∨ after5 env e := by
  unfold step5 CheckServicePrincipalSecret after5
  by_cases h : env.dbx.secretCount ≥ max_secrets
  · have h' : ¬ env.dbx.secretCount < max_secrets := not_lt.mpr h
    simp [h, h']
  · have h' : env.dbx.secretCount < max_secrets := lt_of_not_ge h
    simp only [h, if_false]
    rw [mem_step6]
    simp [h', or_assoc]

/-- Events of a whole notebook run. -/
theorem mem_run (env : NotebookEnv) (e : Event) :
    e ∈ (runNotebook env).1 ↔ e = Event.CheckPrincipal ∨ after5 env e := by
  unfold runNotebook
  rw [mem_step5]
  simp

/-! ## The trace accumulator is only appended to -/

/-- Step 16 only appends to the accumulated trace. -/
theorem trace16 (env : NotebookEnv) (tr : List Event) :
    (step16 env tr).1 = tr ++ (step16 env []).1 := by
  unfold step16
  by_cases h : env.refreshFlag = "true"
  · simp only [h, if_true]
    cases RefreshDataset env.pbi.refreshStatus env.pbi.refreshBody <;> simp
  · simp [h]

/-- Step 15 only appends to the accumulated trace. -/
theorem trace15 (env : NotebookEnv) (tr : List Event) :
    (step15 env tr).1 = tr ++ (step15 env []).1 := by
  unfold step15
  cases UpdateDatasetDatasource env.pbi.updateStatus env.pbi.updateBody with
  | error a => simp
  | ok _ =>
    rw [trace16]
    simp [trace16 env [Event.Publish]]

/-- Step 14 only appends to the accumulated trace. -/
theorem trace14 (env : NotebookEnv) (tr : List Event)
    (applicationId secretValue : String) :
    (step14 env tr applicationId secretValue).1
      = tr ++ (step14 env [] applicationId secretValue).1 := by
  unfold step14 buildCredentials
  by_cases h : env.gatewayType = "Onpremises"
  · simp only [h, if_true]
    rw [trace15]
    simp [trace15 env [Event.FetchGatewayKey]]
  · simp only [h, if_false, List.append_nil, List.nil_append]
    exact trace15 env tr

/-- Step 13 only appends to the accumulated trace. -/
theorem trace13 (env : NotebookEnv) (tr : List Event)
    (applicationId secretValue : String) :
    (step13 env tr applicationId secretValue).1
      = tr ++ (step13 env [] applicationId secretValue).1 := by
  unfold step13
  cases GetDatasetDatasource env.pbi.datasources with
  | none => simp
  | some x =>
    rw [trace14]
    simp [trace14 env [Event.ResolveDatasource]]

/-! ## Claims -/

/-- C4 (counterexample): with two principals matching the display-name filter,
`CheckServicePrincipal` returns the ids of the second (last) match, not the
first match's ids as the claim states. -/
theorem CheckServicePrincipal_first_match_refuted :
    CheckServicePrincipal
        ⟨[⟨"appA", "idA"⟩, ⟨"appB", "idB"⟩], ⟨"appC", "idC"⟩, 0, "s"⟩
      = ("appB", "idB") ∧
    CheckServicePrincipal
        ⟨[⟨"appA", "idA"⟩, ⟨"appB", "idB"⟩], ⟨"appC", "idC"⟩, 0, "s"⟩
      ≠ ("appA", "idA") := by
  constructor
  · rfl
  · decide

/-- C4 (amended): `CheckServicePrincipal` looks the principal up by display
name; with zero matches it creates a new principal and returns the created
`(applicationId, id)`, with one or more matches the scan-and-overwrite loop
returns the LAST match's `(applicationId, id)`. -/
theorem CheckServicePrincipal_last_match_or_create (env : DatabricksEnv) :
    (env.listByName = [] →
      CheckServicePrincipal env
        = (env.created.application_id, env.created.id)) ∧
    (∀ sp, env.listByName.getLast? = some sp →
      CheckServicePrincipal env = (sp.application_id, sp.id)) := by
  constructor
  · intro h
    simp [CheckServicePrincipal, h]
  · intro sp hsp
    simp [CheckServicePrincipal,
      foldl_overwrite (fun q : ServicePrincipalObj => (q.application_id, q.id)),
      hsp]

/-- C4 (witness): on a concrete two-match list the amended theorem returns the
last match, and on an empty list it returns the created principal. -/
theorem CheckServicePrincipal_last_match_or_create_witness :
    CheckServicePrincipal
        ⟨[⟨"a1", "i1"⟩, ⟨"a2", "i2"⟩], ⟨"c1", "ci"⟩, 0, "s"⟩ = ("a2", "i2") ∧
    CheckServicePrincipal ⟨[], ⟨"c1", "ci"⟩, 0, "s"⟩ = ("c1", "ci") :=
  ⟨(CheckServicePrincipal_last_match_or_create _).2 ⟨"a2", "i2"⟩ (by decide),
   (CheckServicePrincipal_last_match_or_create _).1 rfl⟩

/-- C5: `GetDatasetId` returns the id of the LAST entry whose `name` equals
the requested name, and `GetDatasetDatasource` returns the gateway/datasource
ids of the LAST entry whose connector kind equals `"Databricks"` (`none` when
no entry matches, see C10). -/
theorem resolve_by_name_last_match_wins (datasets : List Dataset)
    (dataset_name : String) (datasources : List Datasource) :
    GetDatasetId datasets dataset_name
      = ((datasets.filter (fun i => i.name == dataset_name)).getLast?).map
          (fun i => i.id) ∧
    GetDatasetDatasource datasources
      = ((datasources.filter (fun i => i.kind == "Databricks")).getLast?).map
          (fun i => (i.gatewayId, i.datasourceId)) := by
  constructor
  · unfold GetDatasetId
    rw [foldl_cond_overwrite (fun i : Dataset => i.name == dataset_name)
      (fun i => i.id)]
    cases (datasets.filter (fun i => i.name == dataset_name)).getLast? <;> simp
  · unfold GetDatasetDatasource
    rw [foldl_cond_overwrite (fun i : Datasource => i.kind == "Databricks")
      (fun i => (i.gatewayId, i.datasourceId))]
    cases (datasources.filter (fun i => i.kind == "Databricks")).getLast? <;>
      simp

/-- C6: `GetWorkspaceId` fails with the not-found error on zero matches,
returns the single match's id, and surfaces a non-200 status as an error
carrying the status code and response body. -/
theorem GetWorkspaceId_spec (env : PowerBIEnv) (workspace_name : String) :
    (env.workspaceStatus = 200 → env.workspaces = [] →
      GetWorkspaceId env workspace_name
        = .error (.WorkspaceNotFound workspace_name)) ∧
    (∀ w, env.workspaceStatus = 200 → env.workspaces = [w] →
      GetWorkspaceId env workspace_name = .ok w) ∧
    (env.workspaceStatus ≠ 200 →
      GetWorkspaceId env workspace_name
        = .error (.WorkspaceStatusError env.workspaceStatus
            env.workspaceBody)) := by
  refine ⟨?_, ?_, ?_⟩
  · intro h1 h2
    simp [GetWorkspaceId, h1, h2]
  · intro w h1 h2
    simp [GetWorkspaceId, h1, h2]
  · intro h
    simp [GetWorkspaceId, h]

/-- C6 (witness): the three branches at concrete inputs. -/
theorem GetWorkspaceId_spec_witness :
    GetWorkspaceId ⟨200, "", [], [], 0, [], "", 0, "", 0, ""⟩ "Acme"
        = .error (.WorkspaceNotFound "Acme") ∧
    GetWorkspaceId ⟨200, "", ["w1"], [], 0, [], "", 0, "", 0, ""⟩ "Acme"
        = .ok "w1" ∧
    GetWorkspaceId ⟨403, "denied", [], [], 0, [], "", 0, "", 0, ""⟩ "Acme"
        = .error (.WorkspaceStatusError 403 "denied") :=
  ⟨(GetWorkspaceId_spec _ _).1 rfl rfl,
   (GetWorkspaceId_spec _ _).2.1 "w1" rfl rfl,
   (GetWorkspaceId_spec _ _).2.2 (by decide)⟩

/-- C10: when no dataset carries the requested name, and when no datasource is
of kind `"Databricks"`, the scan's result variable is never assigned, modelled
as `none` (the Python `return` then raises `UnboundLocalError`); the pipeline
surfaces this as the undefined-variable crash `Err.UnboundLocalError`, not as
any of the defined error kinds. -/
theorem resolve_no_match_unassigned (datasets : List Dataset)
    (dataset_name : String) (datasources : List Datasource) :
    ((∀ i ∈ datasets, i.name ≠ dataset_name) →
      GetDatasetId datasets dataset_name = none) ∧
    ((∀ i ∈ datasources, i.kind ≠ "Databricks") →
      GetDatasetDatasource datasources = none) ∧
    (∀ (env : NotebookEnv) (tr : List Event) (a s : String),
      GetDatasetId env.pbi.datasets env.datasetName = none →
        (step11 env tr a s).2 = some (.UnboundLocalError "DatasetId")) ∧
    (∀ (env : NotebookEnv) (tr : List Event) (a s : String),
      GetDatasetDatasource env.pbi.datasources = none →
        (step13 env tr a s).2 = some (.UnboundLocalError "GatewayId")) := by
  refine ⟨?_, ?_, ?_, ?_⟩
  · intro h
    unfold GetDatasetId
    rw [foldl_cond_overwrite (fun i : Dataset => i.name == dataset_name)
      (fun i => i.id)]
    have hf : datasets.filter (fun i => i.name == dataset_name) = [] := by
      apply List.filter_eq_nil_iff.mpr
      intro i hi
      simpa using h i hi
    rw [hf]
    rfl
  · intro h
    unfold GetDatasetDatasource
    rw [foldl_cond_overwrite (fun i : Datasource => i.kind == "Databricks")
      (fun i => (i.gatewayId, i.datasourceId))]
    have hf : datasources.filter (fun i => i.kind == "Databricks") = [] := by
      apply List.filter_eq_nil_iff.mpr
      intro i hi
      simpa using h i hi
    rw [hf]
    rfl
  · intro env tr a s h
    simp [step11, h]
  · intro env tr a s h
    simp [step13, h]

/-- C10 (witness): concrete unmatched listings produce the unassigned result,
and the pipeline steps surface the unbound-variable crash. -/
theorem resolve_no_match_unassigned_witness :
    GetDatasetId [⟨"Other", "d1"⟩] "Revenue" = none ∧
    GetDatasetDatasource [⟨"SQL", "g1", "s1"⟩] = none ∧
    (step11 (envOf "NoGateway" "true" dbxOk
        ⟨200, "", ["ws-1"], [⟨"Other", "d1"⟩], 200, [], "pk", 200, "", 202, ""⟩)
        [] "a" "s").2
      = some (.UnboundLocalError "DatasetId") :=
  ⟨(resolve_no_match_unassigned [⟨"Other", "d1"⟩] "Revenue" []).1 (by decide),
   (resolve_no_match_unassigned [] "x" [⟨"SQL", "g1", "s1"⟩]).2.1 (by decide),
   (resolve_no_match_unassigned [] "x" []).2.2.1 _ [] "a" "s" (by decide)⟩

/-- C2 (counterexample): for the gateway-mode value `"PersonalGateway"`, which
is none of NoGateway/Onpremises/VNET, step 14 silently produces exactly the
same plaintext `"None"`-tagged credentials as for `"NoGateway"`; no
`UnsupportedGatewayMode` failure exists anywhere in the code. -/
theorem unsupported_mode_silent_default :
    buildCredentials (fun _ p => p) "PersonalGateway" "app-123" "dose-secret"
        "pk"
      = buildCredentials (fun _ p => p) "NoGateway" "app-123" "dose-secret"
        "pk" ∧
    (buildCredentials (fun _ p => p) "PersonalGateway" "app-123" "dose-secret"
        "pk").2.1
      = "None" := by
  constructor
  · rfl
  · rfl

/-- C2 (amended): every gateway-mode value other than `"Onpremises"`
(including arbitrary unsupported strings) silently takes the `else` branch:
plaintext credentials with algorithm tag `"None"` and no gateway-key fetch.
Unsupported values are excluded only by the notebook's dropdown widget, not by
this code path. -/
theorem buildCredentials_default_plaintext (encrypt : String → String → String)
    (gatewayType applicationId secretValue publicKey : String)
    (h : gatewayType ≠ "Onpremises") :
    buildCredentials encrypt gatewayType applicationId secretValue publicKey
      = ([], "None", plaintextCredentialString applicationId secretValue) := by
  simp [buildCredentials, h]

/-- C2 (witness): the amended theorem at the mode `"VNET"`. -/
theorem buildCredentials_default_plaintext_witness :
    ("VNET" : String) ≠ "Onpremises" ∧
    buildCredentials (fun _ p => p) "VNET" "app-123" "dose-secret" "pk"
      = ([], "None", plaintextCredentialString "app-123" "dose-secret") :=
  ⟨by decide,
   buildCredentials_default_plaintext (fun _ p => p) "VNET" "app-123"
     "dose-secret" "pk" (by decide)⟩

/-- C3 (counterexample): the string encrypted in the `Onpremises` branch
contains no double-quote character at all (it is single-quoted), so it is not
the double-quoted JSON serialization used in the plaintext case. -/
theorem onprem_double_quoting_refuted :
    '"' ∉ (onpremCredentialString "app-123" "dose-secret").data ∧
    '"' ∈ (plaintextCredentialString "app-123" "dose-secret").data ∧
    onpremCredentialString "app-123" "dose-secret"
      ≠ plaintextCredentialString "app-123" "dose-secret" := by
  decide

/-- C3 (amended): for mode `Onpremises` the pre-encryption payload carries the
same key names and values as the plaintext case, but serialized with single
quotes and no whitespace (rewriting its single quotes to double quotes yields
exactly the whitespace-stripped plaintext payload); the algorithm tag is
`"RSA-OAEP"` and the encrypted blob is the encryption of that single-quoted
string. -/
theorem onprem_payload_single_quoted (applicationId secretValue : String)
    (ha1 : ∀ c ∈ applicationId.data, c ≠ '\x27')
    (ha2 : ∀ c ∈ applicationId.data, c ≠ ' ')
    (hs1 : ∀ c ∈ secretValue.data, c ≠ '\x27')
    (hs2 : ∀ c ∈ secretValue.data, c ≠ ' ') :
    squashQuotes (onpremCredentialString applicationId secretValue)
      = stripSpaces (plaintextCredentialString applicationId secretValue) ∧
    (∀ (encrypt : String → String → String) (publicKey : String),
      buildCredentials encrypt "Onpremises" applicationId secretValue publicKey
        = ([Event.FetchGatewayKey], "RSA-OAEP",
            encrypt publicKey
              (onpremCredentialString applicationId secretValue))) := by
  constructor
  · unfold onpremCredentialString plaintextCredentialString
    rw [squashQuotes_append, squashQuotes_append, squashQuotes_append,
      squashQuotes_append, stripSpaces_append, stripSpaces_append,
      stripSpaces_append, stripSpaces_append,
      squashQuotes_of_no_quote applicationId ha1,
      squashQuotes_of_no_quote secretValue hs1,
      stripSpaces_of_no_space applicationId ha2,
      stripSpaces_of_no_space secretValue hs2]
    have e1 :
        squashQuotes
            "\x7b\x27credentialData\x27:[\x7b\x27name\x27:\x27username\x27,\x27value\x27:\x27"
          = stripSpaces
            "\x7b\"credentialData\":[\x7b\"name\":\"username\", \"value\": \"" := by
      decide
    have e2 :
        squashQuotes "\x27\x7d,\x7b\x27name\x27:\x27password\x27,\x27value\x27:\x27"
          = stripSpaces "\"\x7d,\x7b\"name\":\"password\", \"value\": \"" := by
      decide
    have e3 : squashQuotes "\x27\x7d]\x7d" = stripSpaces "\"\x7d]\x7d" := by
      decide
    rw [e1, e2, e3]
  · intro encrypt publicKey
    simp [buildCredentials]

/-- C3 (witness): the amended payload relation at concrete credentials. -/
theorem onprem_payload_single_quoted_witness :
    squashQuotes (onpremCredentialString "app-123" "dose-secret")
      = stripSpaces (plaintextCredentialString "app-123" "dose-secret") :=
  (onprem_payload_single_quoted "app-123" "dose-secret" (by decide) (by decide)
    (by decide) (by decide)).1

/-- When the cap check, the workspace resolution and the dataset resolution
all succeed, the run is the step-12 suffix after the six fixed opening API
calls. -/
theorem run_eq_step12 {w d : String} (env : NotebookEnv)
    (hcap : env.dbx.secretCount < max_secrets)
    (hw : GetWorkspaceId env.pbi env.workspaceName = .ok w)
    (hd : GetDatasetId env.pbi.datasets env.datasetName = some d) :
    runNotebook env
      = step12 env
          [Event.CheckPrincipal, Event.CheckSecretCount, Event.MintSecret,
            Event.GrantPermission, Event.ResolveWorkspace, Event.ResolveDataset]
          (CheckServicePrincipal env.dbx).1 env.dbx.newSecret := by
  have hcap' : ¬ env.dbx.secretCount ≥ max_secrets := not_le.mpr hcap
  simp [runNotebook, step5, step6, step10, step11, CheckServicePrincipalSecret,
    GenerateServicePrincipalSecret, hcap', hw, hd]

/-- C1: with the live secret count at or above the cap of five, the capacity
check raises the cap-exceeded error, the run terminates with that error, and
the secret-minting call never appears in the run's trace. -/
theorem cap_check_stops_minting (env : NotebookEnv)
    (h : env.dbx.secretCount ≥ max_secrets) :
    CheckServicePrincipalSecret env.dbx.secretCount
        (CheckServicePrincipal env.dbx).2
      = .error (.RotationCapExceeded (CheckServicePrincipal env.dbx).2) ∧
    (runNotebook env).2
      = some (.RotationCapExceeded (CheckServicePrincipal env.dbx).2) ∧
    Event.MintSecret ∉ (runNotebook env).1 := by
  have h' : ¬ env.dbx.secretCount < max_secrets := not_lt.mpr h
  refine ⟨?_, ?_, ?_⟩
  · simp [CheckServicePrincipalSecret, h]
  · simp [runNotebook, step5, CheckServicePrincipalSecret, h]
  · rw [mem_run]
    simp [after5, h']

/-- C1 (witness): a principal with five live secrets stops the run before
minting. -/
theorem cap_check_stops_minting_witness :
    (envOf "NoGateway" "true" dbxFull pbiOk).dbx.secretCount ≥ max_secrets ∧
    (runNotebook (envOf "NoGateway" "true" dbxFull pbiOk)).2
      = some (.RotationCapExceeded "sp-1") ∧
    Event.MintSecret
      ∉ (runNotebook (envOf "NoGateway" "true" dbxFull pbiOk)).1 :=
  ⟨by decide,
   (cap_check_stops_minting (envOf "NoGateway" "true" dbxFull pbiOk)
      (by decide)).2.1,
   (cap_check_stops_minting (envOf "NoGateway" "true" dbxFull pbiOk)
      (by decide)).2.2⟩

/-- C7: in the `NoGateway` and `VNET` modes step 14 produces the plaintext
payload with algorithm tag `"None"`; stripped of its two insignificant
f-string spaces that payload is exactly the JSON object written in the claim;
and the gateway public key is never fetched during the run. -/
theorem plaintext_mode_payload (env : NotebookEnv)
    (encrypt : String → String → String)
    (applicationId secretValue publicKey : String)
    (hmode : env.gatewayType = "NoGateway" ∨ env.gatewayType = "VNET")
    (ha : ∀ c ∈ applicationId.data, c ≠ ' ')
    (hs : ∀ c ∈ secretValue.data, c ≠ ' ') :
    buildCredentials encrypt env.gatewayType applicationId secretValue
        publicKey
      = ([], "None", plaintextCredentialString applicationId secretValue) ∧
    stripSpaces (plaintextCredentialString applicationId secretValue)
      = claimedPlaintextJson applicationId secretValue ∧
    Event.FetchGatewayKey ∉ (runNotebook env).1 := by
  have hne : env.gatewayType ≠ "Onpremises" := by
    rcases hmode with h | h <;> rw [h] <;> decide
  refine ⟨?_, ?_, ?_⟩
  · simp [buildCredentials, hne]
  · unfold plaintextCredentialString claimedPlaintextJson
    rw [stripSpaces_append, stripSpaces_append, stripSpaces_append,
      stripSpaces_append, stripSpaces_of_no_space applicationId ha,
      stripSpaces_of_no_space secretValue hs]
    have e1 :
        stripSpaces
            "\x7b\"credentialData\":[\x7b\"name\":\"username\", \"value\": \""
          = "\x7b\"credentialData\":[\x7b\"name\":\"username\",\"value\":\"" := by
      decide
    have e2 : stripSpaces "\"\x7d,\x7b\"name\":\"password\", \"value\": \""
        = "\"\x7d,\x7b\"name\":\"password\",\"value\":\"" := by
      decide
    have e3 : stripSpaces "\"\x7d]\x7d" = "\"\x7d]\x7d" := by
      decide
    rw [e1, e2, e3]
  · rw [mem_run]
    simp [after5, after6, after10, after11, after12, after13, after14,
      after15, after16, hne]

/-- C7 (witness): the `VNET` run at concrete credentials. -/
theorem plaintext_mode_payload_witness :
    buildCredentials (fun _ p => p)
        (envOf "VNET" "true" dbxOk pbiOk).gatewayType "app-123" "dose-secret"
        "pk"
      = ([], "None", plaintextCredentialString "app-123" "dose-secret") ∧
    stripSpaces (plaintextCredentialString "app-123" "dose-secret")
      = claimedPlaintextJson "app-123" "dose-secret" ∧
    Event.FetchGatewayKey ∉ (runNotebook (envOf "VNET" "true" dbxOk pbiOk)).1 :=
  plaintext_mode_payload (envOf "VNET" "true" dbxOk pbiOk) (fun _ p => p)
    "app-123" "dose-secret" "pk" (Or.inr rfl) (by decide) (by decide)

/-- C8: ownership takeover happens only in `NoGateway` mode; when the run
reaches step 12 in that mode the takeover request appears exactly once in the
trace and strictly before the datasource-resolution call, and a non-200
takeover status terminates the run with the ownership error. -/
theorem takeover_once_nogateway_before_resolve (env : NotebookEnv) :
    (env.gatewayType ≠ "NoGateway" → Event.TakeOver ∉ (runNotebook env).1) ∧
    (env.pbi.takeoverStatus ≠ 200 →
      TakOverDataset env.pbi.takeoverStatus = .error .OwnershipDenied) ∧
    (env.gatewayType = "NoGateway" → ReachedStep12 env →
      ((runNotebook env).1.count Event.TakeOver = 1 ∧
        (∃ pre suf, (runNotebook env).1 = pre ++ Event.TakeOver :: suf ∧
          Event.ResolveDatasource ∉ pre ∧ Event.TakeOver ∉ suf) ∧
        (env.pbi.takeoverStatus ≠ 200 →
          (runNotebook env).2 = some Err.OwnershipDenied))) := by
  refine ⟨?_, ?_, ?_⟩
  · intro hng
    rw [mem_run]
    simp [after5, after6, after10, after11, after12, after13, after14,
      after15, after16, hng]
  · intro h
    simp [TakOverDataset, h]
  · rintro hgt ⟨hcap, hws, hds⟩
    obtain ⟨w, hw⟩ := isOk_exists _ hws
    obtain ⟨d, hd⟩ := Option.isSome_iff_exists.mp hds
    rw [run_eq_step12 env hcap hw hd]
    have hTOtail : ∀ a s, Event.TakeOver ∉ (step13 env [] a s).1 := by
      intro a s hmem
      rw [mem_step13] at hmem
      simp [after13, after14, after15, after16] at hmem
    by_cases h2 : env.pbi.takeoverStatus = 200
    · simp only [step12, hgt, if_true, TakOverDataset, h2]
      rw [trace13]
      refine ⟨?_, ?_, ?_⟩
      · rw [List.count_append]
        have : (step13 env [] (CheckServicePrincipal env.dbx).1
            env.dbx.newSecret).1.count Event.TakeOver = 0 :=
          List.count_eq_zero.mpr (hTOtail _ _)
        rw [this]
        decide
      · refine ⟨[Event.CheckPrincipal, Event.CheckSecretCount,
          Event.MintSecret, Event.GrantPermission, Event.ResolveWorkspace,
          Event.ResolveDataset],
          (step13 env [] (CheckServicePrincipal env.dbx).1
            env.dbx.newSecret).1, by simp, by decide, hTOtail _ _⟩
      · intro h3
        exact absurd rfl h3
    · simp only [step12, hgt, if_true, TakOverDataset, h2, if_false]
      refine ⟨by decide, ?_, by intro h3; trivial⟩
      exact ⟨[Event.CheckPrincipal, Event.CheckSecretCount, Event.MintSecret,
        Event.GrantPermission, Event.ResolveWorkspace, Event.ResolveDataset],
        [], rfl, by decide, by decide⟩

/-- C8 (witness): in a fully successful `NoGateway` run the takeover call
appears exactly once, and in an `Onpremises` run it never appears. -/
theorem takeover_once_nogateway_before_resolve_witness :
    (runNotebook (envOf "NoGateway" "true" dbxOk pbiOk)).1.count Event.TakeOver
        = 1 ∧
    Event.TakeOver ∉ (runNotebook (envOf "Onpremises" "true" dbxOk pbiOk)).1 :=
  ⟨((takeover_once_nogateway_before_resolve
      (envOf "NoGateway" "true" dbxOk pbiOk)).2.2 rfl
      ⟨by decide, by decide, by decide⟩).1,
   (takeover_once_nogateway_before_resolve
      (envOf "Onpremises" "true" dbxOk pbiOk)).1 (by decide)⟩

/-- C9: the refresh call appears in the trace iff the run reaches the publish,
the publish returns 200 and the refresh flag is `"true"`; a rejected publish
terminates the run with the publish error carrying the downstream status and
body, and the refresh is never invoked. -/
theorem refresh_iff_publish_succeeded (env : NotebookEnv) :
    (Event.Refresh ∈ (runNotebook env).1 ↔
      ReachedPublish env ∧ env.pbi.updateStatus = 200 ∧
        env.refreshFlag = "true") ∧
    (ReachedPublish env → env.pbi.updateStatus ≠ 200 →
      ((runNotebook env).2
          = some (.PublishRejected env.pbi.updateStatus env.pbi.updateBody) ∧
        Event.Refresh ∉ (runNotebook env).1)) := by
  have hiff : Event.Refresh ∈ (runNotebook env).1 ↔
      ReachedPublish env ∧ env.pbi.updateStatus = 200 ∧
        env.refreshFlag = "true" := by
    rw [mem_run]
    simp only [ReachedPublish, ReachedStep12, after5, after6, after10,
      after11, after12, after13, after14, after15, after16]
    simp
    tauto
  refine ⟨hiff, ?_⟩
  rintro ⟨⟨hcap, hws, hds⟩, htk, hdsrc⟩ hup
  constructor
  · obtain ⟨w, hw⟩ := isOk_exists _ hws
    obtain ⟨d, hd⟩ := Option.isSome_iff_exists.mp hds
    obtain ⟨gd, hgd⟩ := Option.isSome_iff_exists.mp hdsrc
    rw [run_eq_step12 env hcap hw hd]
    by_cases hgt : env.gatewayType = "NoGateway"
    · simp [step12, step13, step14, step15, buildCredentials,
        UpdateDatasetDatasource, TakOverDataset, hgt, htk hgt, hgd, hup]
    · simp [step12, step13, step14, step15, buildCredentials,
        UpdateDatasetDatasource, TakOverDataset, hgt, hgd, hup]
  · rw [hiff]
    rintro ⟨_, h200, _⟩
    exact hup h200

/-- C9 (witness): a 403 publish rejection terminates the run with the status
and body and the refresh never fires. -/
theorem refresh_iff_publish_succeeded_witness :
    (runNotebook (envOf "NoGateway" "true" dbxOk pbiDeny)).2
      = some (.PublishRejected 403 "forbidden") ∧
    Event.Refresh ∉ (runNotebook (envOf "NoGateway" "true" dbxOk pbiDeny)).1 :=
  (refresh_iff_publish_succeeded (envOf "NoGateway" "true" dbxOk pbiDeny)).2
    ⟨⟨by decide, by decide, by decide⟩, fun _ => rfl, by decide⟩ (by decide)

end M2MRotation
